import Mathlib

/-!
Verification of the background export logic of the "Google Docs to Outline"
browser extension.

The development shallowly embeds the most complete variant of the sources:

* `outlineAPI.js` (the Remote API Client): base-URL normalization, the
  centralized `_request` helper with its retry loop, and `getCollection`
  with its deleted/archived checks.
* the background script (`background.js`, most complete variant): the
  configuration cache and its invalidation listener, `getOrCreateCollection`,
  the three action handlers (`saveGoogleDoc`, `importGoogleSheet`,
  `appendHeader`), `respondWithError` and the `onMessage` dispatcher.
* `headerUpdateHelper.js`: `appendHeaderToDocument`.

External effects (fetch, chrome storage, Date) are passed in explicitly as
oracle values/functions; JavaScript strings are `String`, absent (`undefined`
or `null`) values are `Option`, and JS truthiness of string-valued fields is
the `truthy` predicate below.
-/

/-- Truthiness of a possibly-absent JavaScript string: `undefined`, `null`
and `""` are falsy, every other string is truthy. -/
def truthy : Option String → Bool
  | some s => !s.isEmpty
  | none => false

/-- Value of a possibly-absent JavaScript string, defaulting to `""` (the
coercion JS applies after a truthiness guard has passed). -/
def jsStr : Option String → String
  | some s => s
  | none => ""

/-- Whitespace characters removed by the JavaScript `trim()` used on the
configuration values (the ASCII portion of the WhiteSpace/LineTerminator
classes). -/
def jsWhitespace (c : Char) : Bool :=
  c = ' ' || c = '\t' || c = '\n' || c = '\r' || c = '\x0b' || c = '\x0c'

/-- The JavaScript `s.trim()`: remove leading and trailing whitespace. -/
def jsTrim (s : String) : String :=
  String.mk (((s.data.dropWhile jsWhitespace).reverse.dropWhile jsWhitespace).reverse)

/-! ## Remote API Client (`outlineAPI.js`) -/

/-- Result of one `fetch`: `status` and the error/JSON body text. -/
structure HttpResponse where
  status : Nat
  body : String
  deriving Repr, DecidableEq

/-- The `response.ok` flag: status in the range 200–299. -/
def HttpResponse.ok (r : HttpResponse) : Bool :=
  200 ≤ r.status && r.status < 300

/-- Outcome of a single attempt inside `_request`: a rejected fetch
propagates its error; a non-ok response throws
`Outline API error: <status> - <body>`; an ok response resolves to the
(parsed) body. -/
def attemptOutcome (f : Except String HttpResponse) : Except String String :=
  match f with
  | Except.error e => Except.error e
  | Except.ok r =>
    if r.ok then Except.ok r.body
    else Except.error ("Outline API error: " ++ toString r.status ++ " - " ++ r.body)

/-- The retry loop of `OutlineAPI._request`: attempt the fetch; on any error,
if `attempts < retry` then increment `attempts` and try again, otherwise
rethrow the last error. The loop is encoded with the remaining budget
`budget = retry - attempts` as the recursion measure, so the guard
`attempts < retry` becomes `budget > 0`. `fetchAt k` is the outcome of the
`k`-th fetch call (0-based); the first component of the result counts the
fetch calls made. -/
def requestAux (fetchAt : Nat → Except String HttpResponse) (budget attempts : Nat) :
    Nat × Except String String :=
  match attemptOutcome (fetchAt attempts) with
  | Except.ok v => (attempts + 1, Except.ok v)
  | Except.error e =>
    match budget with
    | 0 => (attempts + 1, Except.error e)
    | b + 1 => requestAux fetchAt b (attempts + 1)

/-- `OutlineAPI._request` with retry budget `retry` (the option's default is
`0`, and no call site in the repository passes a different value). -/
def requestRun (fetchAt : Nat → Except String HttpResponse) (retry : Nat) :
    Nat × Except String String :=
  requestAux fetchAt retry 0

/-- Base-URL normalization of the `OutlineAPI` constructor:
`baseUrl.replace(/\/+$/, '')`, i.e. strip every trailing `'/'`. -/
def stripTrailingSlashes (s : String) : String :=
  String.mk ((s.data.reverse.dropWhile (fun c => c = '/')).reverse)

/-- Fields of `result.data` for `collections.info` that `getCollection`
inspects: the (possibly null) deletion and archival timestamps. -/
structure CollectionData where
  deletedAt : Option String
  archivedAt : Option String
  deriving Repr, DecidableEq

/-- Post-processing of `OutlineAPI.getCollection`: propagate a request
failure; if `result.data.deletedAt` is truthy throw
`Collection <id> is deleted.`; if `result.data.archivedAt` is truthy throw
`Collection <id> is archived.`; otherwise return the result. `fetched` is the
outcome of the underlying `_request` (with `result.data` possibly absent). -/
def getCollection (fetched : Except String (Option CollectionData)) (collectionId : String) :
    Except String (Option CollectionData) :=
  match fetched with
  | Except.error e => Except.error e
  | Except.ok d =>
    match d with
    | some info =>
      if truthy info.deletedAt then
        Except.error ("Collection " ++ collectionId ++ " is deleted.")
      else if truthy info.archivedAt then
        Except.error ("Collection " ++ collectionId ++ " is archived.")
      else Except.ok (some info)
    | none => Except.ok none

/-! ## Background script data model -/

/-- The in-memory configuration cache entry (`cachedConfig`). -/
structure Config where
  outlineUrl : String
  apiToken : String
  googleDocsCollectionName : String
  googleSheetsCollectionName : String
  deriving Repr, DecidableEq

/-- Values read from synced storage by `getSyncStorage([...])`; each key may
be absent. -/
structure SyncStored where
  outlineUrl : Option String
  apiToken : Option String
  googleDocsCollectionName : Option String
  googleSheetsCollectionName : Option String
  deriving Repr, DecidableEq

/-- The `name?.trim() || defaultName` idiom used for the two collection-name
fields of `cachedConfig`. -/
def collectionNameOrDefault (v : Option String) (defaultName : String) : String :=
  match v with
  | some s => if (jsTrim s).isEmpty then defaultName else jsTrim s
  | none => defaultName

/-- The `cachedConfig` record assembled by `withOutlineConfig`: URL and token
are whitespace-trimmed, collection names fall back to `"google-docs"` and
`"google-sheets"`. -/
def mkCachedConfig (outlineUrl apiToken : String)
    (docsName sheetsName : Option String) : Config :=
  { outlineUrl := jsTrim outlineUrl
    apiToken := jsTrim apiToken
    googleDocsCollectionName := collectionNameOrDefault docsName "google-docs"
    googleSheetsCollectionName := collectionNameOrDefault sheetsName "google-sheets" }

/-- An update payload passed to `OutlineAPI.updateDocument`. -/
structure UpdatePayload where
  id : String
  title : String
  text : String
  append : Bool
  publish : Bool
  done : Bool
  deriving Repr, DecidableEq

/-- A response delivered through `sendResponse`. Fields that a given
`sendResponse` call does not mention are `none`. -/
structure ExportResponse where
  success : Bool
  url : Option String := none
  documentId : Option String := none
  error : Option String := none
  timestamp : Option String := none
  result : Option UpdatePayload := none
  deriving Repr, DecidableEq

/-- The `respondWithError` helper (most complete variant): the message is
`error?.message || "Unknown error occurred"` and a timestamp is attached. -/
def respondWithError (now msg : String) : ExportResponse :=
  { success := false
    error := some (if msg.isEmpty then "Unknown error occurred" else msg)
    timestamp := some now }

/-- The success response of `saveGoogleDoc` / `importGoogleSheet`. -/
def successResponse (now docUrl docId : String) : ExportResponse :=
  { success := true
    url := some docUrl
    documentId := some docId
    timestamp := some now }

/-- Fields of `docInfo.data` that the handlers read back from
`documents.info`. -/
structure DocData where
  text : Option String
  title : Option String
  deriving Repr, DecidableEq

/-- The `(docInfo.data && docInfo.data.text) || ""` extraction. -/
def docText (d : Option DocData) : String :=
  match d with
  | some dd => jsStr dd.text
  | none => ""

/-- The `(docInfo.data && docInfo.data.title) || ""` extraction. -/
def docTitle (d : Option DocData) : String :=
  match d with
  | some dd => jsStr dd.title
  | none => ""

/-! ## Header Injector (`headerUpdateHelper.js`) -/

/-- The payload `appendHeaderToDocument` passes to `updateDocument`:
for `position == "top"` the new text is `headerMarkdown + "\n\n" +
currentText` with `append := false`; otherwise the text is `headerMarkdown`
alone with `append := true`. The fetched title is preserved in both cases. -/
def appendHeaderPayload (docId headerMarkdown position : String)
    (d : Option DocData) : UpdatePayload :=
  let currentText := docText d
  let currentTitle := docTitle d
  if position == "top" then
    { id := docId, title := currentTitle
      text := headerMarkdown ++ "\n\n" ++ currentText
      append := false, publish := true, done := true }
  else
    { id := docId, title := currentTitle
      text := headerMarkdown
      append := true, publish := true, done := true }

/-- Effects of one `appendHeaderToDocument` run: its outcome, the number of
API calls made, and the `updateDocument` payloads actually sent. -/
structure HeaderRunResult where
  result : Except String UpdatePayload
  netCalls : Nat
  updates : List UpdatePayload
  deriving Repr

/-- `appendHeaderToDocument`: fetch the current document
(`docInfoRes` is the `getDocument` outcome), build the payload, send it via
`updateDocument` (`updateDoc`), propagating any failure unchanged. -/
def appendHeaderRun (docInfoRes : Except String (Option DocData))
    (updateDoc : UpdatePayload → Except String Unit)
    (docId headerMarkdown position : String) : HeaderRunResult :=
  match docInfoRes with
  | Except.error e => { result := Except.error e, netCalls := 1, updates := [] }
  | Except.ok d =>
    let payload := appendHeaderPayload docId headerMarkdown position d
    match updateDoc payload with
    | Except.error e =>
      { result := Except.error e, netCalls := 2, updates := [payload] }
    | Except.ok _ =>
      { result := Except.ok payload, netCalls := 2, updates := [payload] }

/-! ## Collection Resolver (`getOrCreateCollection`) -/

/-- Effects of one `getOrCreateCollection` run: the returned id or thrown
error, how many times `createCollection` was called, how many API calls were
made in total, and the value stored under the storage key afterwards. -/
structure ResolveResult where
  result : Except String String
  createCalls : Nat
  netCalls : Nat
  stored : Option String
  deriving Repr

/-- Creation branch of `getOrCreateCollection` (entered when no id is stored
or verification failed): call `createCollection`; on success persist the new
id under the storage key and return it; on failure rethrow as
`Failed to create or access collection: <message>` without touching
storage. -/
def createCollectionBranch (stored : Option String) (create : Except String String)
    (priorCalls : Nat) : ResolveResult :=
  match create with
  | Except.ok newId =>
    { result := Except.ok newId, createCalls := 1
      netCalls := priorCalls + 1, stored := some newId }
  | Except.error msg =>
    { result := Except.error ("Failed to create or access collection: " ++ msg)
      createCalls := 1, netCalls := priorCalls + 1, stored := stored }

/-- `getOrCreateCollection`: read the stored id; if present, verify it via
`getCollection` (`getColl cid` is that call's outcome) and return it when the
verification succeeds; on any verification failure, or when nothing is
stored, fall through to the creation branch. -/
def getOrCreateCollection (stored : Option String)
    (getColl : String → Except String (Option CollectionData))
    (create : Except String String) : ResolveResult :=
  match stored with
  | some cid =>
    match getColl cid with
    | Except.ok _ =>
      { result := Except.ok cid, createCalls := 0, netCalls := 1, stored := some cid }
    | Except.error _ => createCollectionBranch (some cid) create 1
  | none => createCollectionBranch none create 0

/-! ## Action handlers -/

/-- The oracle bundle for one message exchange: results of external calls
(synced storage, URL validation, each Outline API operation) and the
timestamp `new Date().toISOString()` evaluates to. -/
structure World where
  sync : SyncStored
  urlValid : String → Bool
  collectionInfo : String → Except String (Option CollectionData)
  createCollection : Except String String
  createDocument : Except String (Option String)
  importDocument : Except String (Option String)
  docInfo : String → Except String (Option DocData)
  updateDoc : UpdatePayload → Except String Unit
  now : String

/-- Verification call made by the handlers:
`api.getCollection(collectionId)` over the `collections.info` fetch
oracle. -/
def worldGetCollection (w : World) (collectionId : String) :
    Except String (Option CollectionData) :=
  getCollection (w.collectionInfo collectionId) collectionId

/-- An incoming message (`request`); every payload field may be absent. -/
structure Request where
  action : Option String
  title : Option String
  content : Option String
  fileContent : Option String
  docId : Option String
  headerMarkdown : Option String
  headerPosition : Option String
  deriving Repr, DecidableEq

/-- The `request.headerPosition || 'top'` default. -/
def headerPositionOf (req : Request) : String :=
  if truthy req.headerPosition then jsStr req.headerPosition else "top"

/-- Effects of one action handler run: the single response it sends, the
number of `createCollection` calls, the total number of API calls, the
`updateDocument` payloads sent, and the collection id stored under the
handler's storage key afterwards. -/
structure HandlerResult where
  response : ExportResponse
  createCalls : Nat
  netCalls : Nat
  updates : List UpdatePayload
  stored : Option String
  deriving Repr

/-- Header-injection step shared by `saveGoogleDoc` and `importGoogleSheet`:
when `request.headerMarkdown` is truthy, run `appendHeaderToDocument` with
position `request.headerPosition || 'top'`; otherwise do nothing. -/
def headerStep (w : World) (req : Request) (docId : String) :
    Except String Unit × Nat × List UpdatePayload :=
  if truthy req.headerMarkdown then
    let hr := appendHeaderRun (w.docInfo docId) w.updateDoc docId
      (jsStr req.headerMarkdown) (headerPositionOf req)
    match hr.result with
    | Except.error e => (Except.error e, hr.netCalls, hr.updates)
    | Except.ok _ => (Except.ok (), hr.netCalls, hr.updates)
  else (Except.ok (), 0, [])

/-- The `saveGoogleDoc` handler (most complete variant): validate title and
content, resolve the docs collection, create the document, require
`res.data.id`, build the document URL from the configured base URL, run the
optional header step, and send exactly one response. -/
def saveGoogleDoc (cfg : Config) (w : World) (req : Request)
    (stored : Option String) : HandlerResult :=
  if !(truthy req.title) || !(truthy req.content) then
    { response := respondWithError w.now
        "Missing required fields: title and content are required"
      createCalls := 0, netCalls := 0, updates := [], stored := stored }
  else
    let r := getOrCreateCollection stored (worldGetCollection w) w.createCollection
    match r.result with
    | Except.error msg =>
      { response := respondWithError w.now msg, createCalls := r.createCalls
        netCalls := r.netCalls, updates := [], stored := r.stored }
    | Except.ok _collectionId =>
      match w.createDocument with
      | Except.error msg =>
        { response := respondWithError w.now msg, createCalls := r.createCalls
          netCalls := r.netCalls + 1, updates := [], stored := r.stored }
      | Except.ok docIdOpt =>
        if !(truthy docIdOpt) then
          { response := respondWithError w.now
              "Failed to get document ID from API response"
            createCalls := r.createCalls, netCalls := r.netCalls + 1
            updates := [], stored := r.stored }
        else
          let docId := jsStr docIdOpt
          let docUrl := cfg.outlineUrl ++ "/doc/" ++ docId
          match headerStep w req docId with
          | (Except.error msg, hn, hu) =>
            { response := respondWithError w.now msg, createCalls := r.createCalls
              netCalls := r.netCalls + 1 + hn, updates := hu, stored := r.stored }
          | (Except.ok _, hn, hu) =>
            { response := successResponse w.now docUrl docId
              createCalls := r.createCalls, netCalls := r.netCalls + 1 + hn
              updates := hu, stored := r.stored }

/-- Rename step of `importGoogleSheet`: when `request.title` is truthy,
fetch the imported document via `getDocument`, then call `updateDocument`
with the requested title, the fetched body and `append := false`. -/
def sheetRenameStep (w : World) (req : Request) (docId : String) :
    Except String Unit × Nat × List UpdatePayload :=
  if truthy req.title then
    match w.docInfo docId with
    | Except.error e => (Except.error e, 1, [])
    | Except.ok d =>
      let payload : UpdatePayload :=
        { id := docId, title := jsStr req.title, text := docText d
          append := false, publish := true, done := true }
      match w.updateDoc payload with
      | Except.error e => (Except.error e, 2, [payload])
      | Except.ok _ => (Except.ok (), 2, [payload])
  else (Except.ok (), 0, [])

/-- The `importGoogleSheet` handler (most complete variant): validate
`fileContent`, resolve the sheets collection, reject whitespace-only
content, import the CSV, require `res.data.id`, optionally rename, run the
optional header step, and send exactly one response. -/
def importGoogleSheet (cfg : Config) (w : World) (req : Request)
    (stored : Option String) : HandlerResult :=
  if !(truthy req.fileContent) then
    { response := respondWithError w.now "Missing required field: fileContent"
      createCalls := 0, netCalls := 0, updates := [], stored := stored }
  else
    let r := getOrCreateCollection stored (worldGetCollection w) w.createCollection
    match r.result with
    | Except.error msg =>
      { response := respondWithError w.now msg, createCalls := r.createCalls
        netCalls := r.netCalls, updates := [], stored := r.stored }
    | Except.ok _collectionId =>
      if (jsTrim (jsStr req.fileContent)).isEmpty then
        { response := respondWithError w.now "Empty file content provided"
          createCalls := r.createCalls, netCalls := r.netCalls
          updates := [], stored := r.stored }
      else
        match w.importDocument with
        | Except.error msg =>
          { response := respondWithError w.now msg, createCalls := r.createCalls
            netCalls := r.netCalls + 1, updates := [], stored := r.stored }
        | Except.ok docIdOpt =>
          if !(truthy docIdOpt) then
            { response := respondWithError w.now
                "Failed to get document ID from import response"
              createCalls := r.createCalls, netCalls := r.netCalls + 1
              updates := [], stored := r.stored }
          else
            let docId := jsStr docIdOpt
            let docUrl := cfg.outlineUrl ++ "/doc/" ++ docId
            match sheetRenameStep w req docId with
            | (Except.error msg, rn, ru) =>
              { response := respondWithError w.now msg, createCalls := r.createCalls
                netCalls := r.netCalls + 1 + rn, updates := ru, stored := r.stored }
            | (Except.ok _, rn, ru) =>
              match headerStep w req docId with
              | (Except.error msg, hn, hu) =>
                { response := respondWithError w.now msg
                  createCalls := r.createCalls, netCalls := r.netCalls + 1 + rn + hn
                  updates := ru ++ hu, stored := r.stored }
              | (Except.ok _, hn, hu) =>
                { response := successResponse w.now docUrl docId
                  createCalls := r.createCalls, netCalls := r.netCalls + 1 + rn + hn
                  updates := ru ++ hu, stored := r.stored }

/-- The `appendHeader` handler: validate `docId` and `headerMarkdown`, run
`appendHeaderToDocument` with position `request.headerPosition || 'top'`,
and send exactly one response (its success response carries the update
result, not a document URL). -/
def appendHeaderAction (w : World) (req : Request) : HandlerResult :=
  if !(truthy req.docId) || !(truthy req.headerMarkdown) then
    { response := respondWithError w.now
        "Missing required fields: docId and headerMarkdown"
      createCalls := 0, netCalls := 0, updates := [], stored := none }
  else
    let docId := jsStr req.docId
    let hr := appendHeaderRun (w.docInfo docId) w.updateDoc docId
      (jsStr req.headerMarkdown) (headerPositionOf req)
    match hr.result with
    | Except.error msg =>
      { response := respondWithError w.now msg, createCalls := 0
        netCalls := hr.netCalls, updates := hr.updates, stored := none }
    | Except.ok payload =>
      { response := { success := true, result := some payload, timestamp := some w.now }
        createCalls := 0, netCalls := hr.netCalls, updates := hr.updates
        stored := none }

/-! ## Export Coordinator (message listener) -/

/-- In-memory plus local-storage state of the background script: the
configuration cache and the two persisted collection ids
(`collectionId` for docs, `collectionId_sheet` for sheets). -/
structure BgState where
  cachedConfig : Option Config
  collectionId : Option String
  collectionIdSheet : Option String
  deriving Repr, DecidableEq

/-- Outcome of `withOutlineConfig` before the callback runs: either an error
response was sent, or a configuration is available. -/
inductive ConfigOutcome where
  | failed (resp : ExportResponse)
  | loaded (cfg : Config)
  deriving Repr

/-- Configuration phase of `withOutlineConfig`: use the cache when present;
otherwise read synced storage, fail on a missing URL/token or an unparsable
URL (`urlValid` is the `new URL(...)` oracle), else build `cachedConfig`
via `mkCachedConfig`. -/
def resolveConfig (cache : Option Config) (sync : SyncStored)
    (urlValid : String → Bool) (now : String) : ConfigOutcome :=
  match cache with
  | some cfg => ConfigOutcome.loaded cfg
  | none =>
    if !(truthy sync.outlineUrl) || !(truthy sync.apiToken) then
      ConfigOutcome.failed (respondWithError now
        "Outline settings not configured. Please update options.")
    else if !(urlValid (jsStr sync.outlineUrl)) then
      ConfigOutcome.failed (respondWithError now
        "Invalid Outline URL format. Please check your settings.")
    else
      ConfigOutcome.loaded (mkCachedConfig (jsStr sync.outlineUrl)
        (jsStr sync.apiToken) sync.googleDocsCollectionName
        sync.googleSheetsCollectionName)

/-- The `chrome.runtime.onMessage` listener (most complete variant): reject a
request without an action, resolve the configuration, dispatch on the action
name, and answer `Unknown action` otherwise. Returns the list of responses
sent (in order) and the state afterwards. -/
def handleMessage (st : BgState) (w : World) (req : Option Request) :
    List ExportResponse × BgState :=
  match req with
  | none => ([{ success := false, error := some "Invalid request: missing action" }], st)
  | some r =>
    if !(truthy r.action) then
      ([{ success := false, error := some "Invalid request: missing action" }], st)
    else
      match resolveConfig st.cachedConfig w.sync w.urlValid w.now with
      | ConfigOutcome.failed resp => ([resp], st)
      | ConfigOutcome.loaded cfg =>
        let st1 : BgState := { st with cachedConfig := some cfg }
        if jsStr r.action == "saveGoogleDoc" then
          let h := saveGoogleDoc cfg w r st1.collectionId
          ([h.response], { st1 with collectionId := h.stored })
        else if jsStr r.action == "importGoogleSheet" then
          let h := importGoogleSheet cfg w r st1.collectionIdSheet
          ([h.response], { st1 with collectionIdSheet := h.stored })
        else if jsStr r.action == "appendHeader" then
          let h := appendHeaderAction w r
          ([h.response], st1)
        else
          ([{ success := false, error := some "Unknown action" }], st1)

/-- Which watched synced-storage keys appear in the `changes` object handed
to the `chrome.storage.onChanged` listener. -/
structure Changes where
  outlineUrl : Bool
  apiToken : Bool
  googleDocsCollectionName : Bool
  googleSheetsCollectionName : Bool
  deriving Repr, DecidableEq

/-- The `chrome.storage.onChanged` listener: when a sync-area change touches
any watched key, null out `cachedConfig` and remove both stored collection
ids; otherwise leave the state alone. -/
def onStorageChanged (st : BgState) (changes : Changes) (areaName : String) : BgState :=
  if areaName == "sync" &&
      (changes.outlineUrl || changes.apiToken ||
        changes.googleDocsCollectionName || changes.googleSheetsCollectionName) then
    { cachedConfig := none, collectionId := none, collectionIdSheet := none }
  else st

/-! ## Concrete fixtures for witnesses and counterexamples -/

/-- A configuration as cached from a well-formed settings store. -/
def testCfg : Config :=
  ⟨"https://ex.com", "tok", "google-docs", "google-sheets"⟩

/-- A world in which every remote call succeeds: the collection verifies,
creation returns `"col1"`, document creation returns id `"doc123"`, the
sheet import returns `"sheet1"`, and `documents.info` returns body `"BODY"`
and title `"TITLE"`. -/
def testWorld : World :=
  { sync := ⟨some "https://ex.com", some "tok", none, none⟩
    urlValid := fun _ => true
    collectionInfo := fun _ => Except.ok (some ⟨none, none⟩)
    createCollection := Except.ok "col1"
    createDocument := Except.ok (some "doc123")
    importDocument := Except.ok (some "sheet1")
    docInfo := fun _ => Except.ok (some ⟨some "BODY", some "TITLE"⟩)
    updateDoc := fun _ => Except.ok ()
    now := "T0" }

/-- Same world, but the configured base URL carries a trailing slash. -/
def slashWorld : World :=
  { testWorld with sync := ⟨some "https://ex.com/", some "tok", none, none⟩ }

/-- Same world, but the `documents.create` response lacks `data.id`. -/
def noIdWorld : World :=
  { testWorld with createDocument := Except.ok none }

/-- A well-formed `saveGoogleDoc` request. -/
def saveReq : Request :=
  ⟨some "saveGoogleDoc", some "T", some "C", none, none, none, none⟩

/-- A well-formed `importGoogleSheet` request that carries a title. -/
def sheetReq : Request :=
  ⟨some "importGoogleSheet", some "Sheet", none, some "a,b", none, none, none⟩

/-- A request whose action is not in the dispatch table. -/
def unknownReq : Request :=
  ⟨some "frobulate", none, none, none, none, none, none⟩

/-- A title of 256 characters (one more than the claimed 255-character
limit). -/
def longTitle : String := String.mk (List.replicate 256 'a')

/-- Failure shape maintained by every handler response: a failure carries an
error message and the run's timestamp. -/
def FailShape (now : String) (resp : ExportResponse) : Prop :=
  resp.success = false → resp.error ≠ none ∧ resp.timestamp = some now

/-! ## Claim theorems -/

/-- C1. Idempotent collection resolution: when a cached collection id
verifies successfully via `getCollection`, `createCollection` is never
called and the cached id is returned with storage untouched; when the
verification fails for any reason, `createCollection` is called exactly
once, and — creation succeeding — the new id is persisted under the same
storage key and returned. -/
theorem resolve_cached_collection (cid : String)
    (getColl : String → Except String (Option CollectionData))
    (create : Except String String) :
    (∀ info, getColl cid = Except.ok info →
        getOrCreateCollection (some cid) getColl create =
          { result := Except.ok cid, createCalls := 0, netCalls := 1
            stored := some cid }) ∧
    (∀ e, getColl cid = Except.error e →
        (getOrCreateCollection (some cid) getColl create).createCalls = 1 ∧
        ∀ newId, create = Except.ok newId →
          getOrCreateCollection (some cid) getColl create =
            { result := Except.ok newId, createCalls := 1, netCalls := 2
              stored := some newId }) := by
  refine ⟨?_, ?_⟩
  · intro info h
    simp [getOrCreateCollection, h]
  · intro e h
    refine ⟨?_, ?_⟩
    · simp only [getOrCreateCollection, h]
      cases create <;> simp [createCollectionBranch]
    · intro newId hc
      simp [getOrCreateCollection, h, hc, createCollectionBranch]

/-- Witness for C1: a verified cached id is returned without creation; a
cached id whose verification fails with a 404 is replaced by the freshly
created one, which is persisted. -/
theorem resolve_cached_collection_witness :
    getOrCreateCollection (some "colA") (fun _ => Except.ok none) (Except.ok "colB") =
      { result := Except.ok "colA", createCalls := 0, netCalls := 1
        stored := some "colA" } ∧
    getOrCreateCollection (some "colA")
        (fun _ => Except.error "Outline API error: 404 - not found")
        (Except.ok "colB") =
      { result := Except.ok "colB", createCalls := 1, netCalls := 2
        stored := some "colB" } :=
  ⟨(resolve_cached_collection "colA" (fun _ => Except.ok none) (Except.ok "colB")).1
      none rfl,
   ((resolve_cached_collection "colA"
        (fun _ => Except.error "Outline API error: 404 - not found")
        (Except.ok "colB")).2 "Outline API error: 404 - not found" rfl).2 "colB" rfl⟩

/-- C9. When the cached id fails verification and the subsequent creation
also fails, `getOrCreateCollection` throws a wrapped error and the stale id
remains stored — persistence happens only after a successful creation. -/
theorem resolve_createFail_keepsStale (cid e msg : String)
    (getColl : String → Except String (Option CollectionData))
    (hv : getColl cid = Except.error e) :
    getOrCreateCollection (some cid) getColl (Except.error msg) =
      { result := Except.error ("Failed to create or access collection: " ++ msg)
        createCalls := 1, netCalls := 2, stored := some cid } := by
  simp [getOrCreateCollection, hv, createCollectionBranch]

/-- Witness for C9: verification fails with a 404, creation fails with a
401, and the stale id `"colA"` stays in storage. -/
theorem resolve_createFail_keepsStale_witness :
    getOrCreateCollection (some "colA")
        (fun _ => Except.error "Outline API error: 404 - not found")
        (Except.error "Outline API error: 401 - unauthorized") =
      { result := Except.error
          "Failed to create or access collection: Outline API error: 401 - unauthorized"
        createCalls := 1, netCalls := 2, stored := some "colA" } :=
  resolve_createFail_keepsStale "colA" "Outline API error: 404 - not found"
    "Outline API error: 401 - unauthorized"
    (fun _ => Except.error "Outline API error: 404 - not found") rfl

/-- Unfolding lemma: a successful attempt ends the retry loop at once. -/
theorem requestAux_ok (f : Nat → Except String HttpResponse) (budget attempts : Nat)
    (v : String) (hf : attemptOutcome (f attempts) = Except.ok v) :
    requestAux f budget attempts = (attempts + 1, Except.ok v) := by
  unfold requestAux
  rw [hf]

/-- Unfolding lemma: a failed attempt with no budget left rethrows. -/
theorem requestAux_error_zero (f : Nat → Except String HttpResponse) (attempts : Nat)
    (e : String) (hf : attemptOutcome (f attempts) = Except.error e) :
    requestAux f 0 attempts = (attempts + 1, Except.error e) := by
  unfold requestAux
  rw [hf]

/-- Unfolding lemma: a failed attempt with budget left retries. -/
theorem requestAux_error_succ (f : Nat → Except String HttpResponse) (b attempts : Nat)
    (e : String) (hf : attemptOutcome (f attempts) = Except.error e) :
    requestAux f (b + 1) attempts = requestAux f b (attempts + 1) := by
  conv_lhs => rw [requestAux]
  rw [hf]

/-- Helper for C2: when every attempt up to the budget fails, the retry loop
makes `budget + 1` calls starting at `attempts` and surfaces the outcome of
the last attempt. -/
theorem requestAux_allFail (fetchAt : Nat → Except String HttpResponse) :
    ∀ budget attempts,
      (∀ k, attempts ≤ k → k ≤ attempts + budget →
          (attemptOutcome (fetchAt k)).isOk = false) →
      requestAux fetchAt budget attempts =
        (attempts + budget + 1, attemptOutcome (fetchAt (attempts + budget))) := by
  intro budget
  induction budget with
  | zero =>
    intro attempts h
    have h0 := h attempts le_rfl (by omega)
    cases hf : attemptOutcome (fetchAt attempts) with
    | ok v => rw [hf] at h0; simp [Except.isOk, Except.toBool] at h0
    | error e => rw [requestAux_error_zero fetchAt attempts e hf]; simp [hf]
  | succ b ih =>
    intro attempts h
    have h0 := h attempts le_rfl (by omega)
    cases hf : attemptOutcome (fetchAt attempts) with
    | ok v => rw [hf] at h0; simp [Except.isOk, Except.toBool] at h0
    | error e =>
      rw [requestAux_error_succ fetchAt b attempts e hf,
        ih (attempts + 1) (fun k hk1 hk2 => h k (by omega) (by omega))]
      have e1 : attempts + 1 + b = attempts + (b + 1) := by omega
      rw [e1]

/-- C2 (amended). The `_request` retry loop draws no distinction between
status classes: any failed attempt — a 401 as much as a 500 — is retried
while budget remains. With budget `retry` and every attempt failing,
exactly `retry + 1` calls are made and the surfaced error is that of the
last attempt (containing its status and body); with the default budget `0`
— the only value any call site uses — exactly one call is made for every
request. -/
theorem request_retry_uniform (fetchAt : Nat → Except String HttpResponse) (retry : Nat)
    (h : ∀ k, k ≤ retry → (attemptOutcome (fetchAt k)).isOk = false) :
    requestRun fetchAt retry = (retry + 1, attemptOutcome (fetchAt retry)) ∧
    ∀ g : Nat → Except String HttpResponse, (requestRun g 0).1 = 1 := by
  constructor
  · have hh := requestAux_allFail fetchAt retry 0 (fun k hk1 hk2 => h k (by omega))
    simpa [requestRun] using hh
  · intro g
    simp only [requestRun, requestAux]
    cases hf : attemptOutcome (g 0) <;> simp

/-- Witness for C2 (amended): a constant-500 remote with budget 2 yields
three calls and the final 500 error; with the default budget 0 a single
call is made. -/
theorem request_retry_uniform_witness :
    requestRun (fun _ => Except.ok ⟨500, "boom"⟩) 2 =
      (3, Except.error "Outline API error: 500 - boom") ∧
    (requestRun (fun _ => Except.ok ⟨500, "boom"⟩) 0).1 = 1 := by
  have h := request_retry_uniform (fun _ => Except.ok ⟨500, "boom"⟩) 2
    (by intro k hk; rfl)
  exact ⟨by rw [h.1]; rfl, h.2 _⟩

/-- Counterexample to C2 as stated: a 401 response with retry budget 2 is
fetched three times, not once — the budget is not bypassed for
authentication errors. -/
theorem request_401_retried_cex :
    requestRun (fun _ => Except.ok ⟨401, "unauthorized"⟩) 2 =
      (3, Except.error "Outline API error: 401 - unauthorized") ∧ (3 : Nat) ≠ 1 :=
  ⟨rfl, by decide⟩

/-- C4. Header positions: for `"top"`, the update payload replaces the body
with `headerBlock + "\n\n" + fetchedBody` (`append := false`), preserving
the fetched title; for `"bottom"`, the payload is `headerBlock` alone with
`append := true`; and in both cases this payload is exactly what
`appendHeaderToDocument` sends to `updateDocument`. -/
theorem appendHeader_positions (docId header : String) (d : Option DocData)
    (updateDoc : UpdatePayload → Except String Unit) :
    appendHeaderPayload docId header "top" d =
      { id := docId, title := docTitle d, text := header ++ "\n\n" ++ docText d
        append := false, publish := true, done := true } ∧
    appendHeaderPayload docId header "bottom" d =
      { id := docId, title := docTitle d, text := header
        append := true, publish := true, done := true } ∧
    (appendHeaderRun (Except.ok d) updateDoc docId header "top").updates =
      [appendHeaderPayload docId header "top" d] ∧
    (appendHeaderRun (Except.ok d) updateDoc docId header "bottom").updates =
      [appendHeaderPayload docId header "bottom" d] := by
  refine ⟨rfl, rfl, ?_, ?_⟩ <;>
    · simp only [appendHeaderRun]
      split <;> rfl

/-- Helper for C3: every failure response of the `saveGoogleDoc` handler is
produced by `respondWithError` and so carries a message and a timestamp. -/
theorem saveGoogleDoc_failShape (cfg : Config) (w : World) (req : Request)
    (stored : Option String) :
    FailShape w.now (saveGoogleDoc cfg w req stored).response := by
  unfold FailShape saveGoogleDoc
  split
  · simp [respondWithError]
  · cases hr : (getOrCreateCollection stored (worldGetCollection w) w.createCollection).result with
    | error msg => simp [hr, respondWithError]
    | ok cid =>
      cases hd : w.createDocument with
      | error msg => simp [hr, hd, respondWithError]
      | ok docIdOpt =>
        by_cases hid : truthy docIdOpt = false
        · simp [hr, hd, hid, respondWithError]
        · cases hh : headerStep w req (jsStr docIdOpt) with
          | mk res rest =>
            cases res with
            | error msg => simp [hr, hd, hid, hh, respondWithError]
            | ok u => simp [hr, hd, hid, hh, successResponse]

/-- Helper for C3: every failure response of the `importGoogleSheet` handler
is produced by `respondWithError`. -/
theorem importGoogleSheet_failShape (cfg : Config) (w : World) (req : Request)
    (stored : Option String) :
    FailShape w.now (importGoogleSheet cfg w req stored).response := by
  unfold FailShape importGoogleSheet
  split
  · simp [respondWithError]
  · cases hr : (getOrCreateCollection stored (worldGetCollection w) w.createCollection).result with
    | error msg => simp [hr, respondWithError]
    | ok cid =>
      by_cases hfc : (jsTrim (jsStr req.fileContent)).isEmpty = true
      · simp [hr, hfc, respondWithError]
      · cases hd : w.importDocument with
        | error msg => simp [hr, hfc, hd, respondWithError]
        | ok docIdOpt =>
          by_cases hid : truthy docIdOpt = false
          · simp [hr, hfc, hd, hid, respondWithError]
          · cases hrn : sheetRenameStep w req (jsStr docIdOpt) with
            | mk rres rrest =>
              cases rres with
              | error msg => simp [hr, hfc, hd, hid, hrn, respondWithError]
              | ok u =>
                cases hh : headerStep w req (jsStr docIdOpt) with
                | mk res rest =>
                  cases res with
                  | error msg => simp [hr, hfc, hd, hid, hrn, hh, respondWithError]
                  | ok v => simp [hr, hfc, hd, hid, hrn, hh, successResponse]

/-- Helper for C3: every failure response of the `appendHeader` handler is
produced by `respondWithError`. -/
theorem appendHeaderAction_failShape (w : World) (req : Request) :
    FailShape w.now (appendHeaderAction w req).response := by
  unfold FailShape appendHeaderAction
  split
  · simp [respondWithError]
  · cases hh : (appendHeaderRun (w.docInfo (jsStr req.docId)) w.updateDoc (jsStr req.docId)
        (jsStr req.headerMarkdown) (headerPositionOf req)).result with
    | error msg => simp [hh, respondWithError]
    | ok u => simp [hh]

/-- Helper for C3: a configuration-phase failure response is produced by
`respondWithError` and so carries a message and a timestamp. -/
theorem resolveConfig_failed_shape (cache : Option Config) (sync : SyncStored)
    (uv : String → Bool) (now : String) (resp : ExportResponse) :
    resolveConfig cache sync uv now = ConfigOutcome.failed resp →
    FailShape now resp := by
  unfold resolveConfig
  cases cache with
  | some cfg =>
    intro h
    simp at h
  | none =>
    by_cases h1 : (!truthy sync.outlineUrl || !truthy sync.apiToken) = true
    · simp only [h1, if_true]
      intro h
      cases h
      simp [FailShape, respondWithError]
    · by_cases h2 : (!uv (jsStr sync.outlineUrl)) = true
      · intro h
        rw [if_neg h1, if_pos h2] at h
        cases h
        simp [FailShape, respondWithError]
      · intro h
        rw [if_neg h1, if_neg h2] at h
        simp at h

/-- C3 (amended). Every incoming message produces exactly one response (the
embedding is total, so no exception escapes the listener), and every failure
response carries an error message; failure responses produced by
`respondWithError` also carry a timestamp, but the fixed
`Invalid request: missing action` and `Unknown action` responses are sent
without one. -/
theorem handleMessage_single_response (st : BgState) (w : World) (req : Option Request) :
    (handleMessage st w req).1.length = 1 ∧
    ∀ resp ∈ (handleMessage st w req).1, resp.success = false →
      resp.error ≠ none ∧
      (resp.timestamp = some w.now ∨
        resp.error = some "Invalid request: missing action" ∨
        resp.error = some "Unknown action") := by
  cases req with
  | none =>
    refine ⟨rfl, ?_⟩
    intro resp hm
    simp only [handleMessage, List.mem_singleton] at hm
    subst hm
    intro _
    simp
  | some r =>
    simp only [handleMessage]
    by_cases ha : (!truthy r.action) = true
    · rw [if_pos ha]
      refine ⟨rfl, ?_⟩
      intro resp hm
      simp only [List.mem_singleton] at hm
      subst hm
      intro _
      simp
    · rw [if_neg ha]
      cases hc : resolveConfig st.cachedConfig w.sync w.urlValid w.now with
      | failed resp0 =>
        simp only [hc]
        refine ⟨rfl, ?_⟩
        intro resp hm
        simp only [List.mem_singleton] at hm
        subst hm
        intro hs
        have hf := resolveConfig_failed_shape st.cachedConfig w.sync w.urlValid w.now resp hc hs
        exact ⟨hf.1, Or.inl hf.2⟩
      | loaded cfg =>
        simp only [hc]
        by_cases h1 : (jsStr r.action == "saveGoogleDoc") = true
        · rw [if_pos h1]
          refine ⟨rfl, ?_⟩
          intro resp hm
          simp only [List.mem_singleton] at hm
          subst hm
          intro hs
          have hf := saveGoogleDoc_failShape cfg w r _ hs
          exact ⟨hf.1, Or.inl hf.2⟩
        · rw [if_neg h1]
          by_cases h2 : (jsStr r.action == "importGoogleSheet") = true
          · rw [if_pos h2]
            refine ⟨rfl, ?_⟩
            intro resp hm
            simp only [List.mem_singleton] at hm
            subst hm
            intro hs
            have hf := importGoogleSheet_failShape cfg w r _ hs
            exact ⟨hf.1, Or.inl hf.2⟩
          · rw [if_neg h2]
            by_cases h3 : (jsStr r.action == "appendHeader") = true
            · rw [if_pos h3]
              refine ⟨rfl, ?_⟩
              intro resp hm
              simp only [List.mem_singleton] at hm
              subst hm
              intro hs
              have hf := appendHeaderAction_failShape w r hs
              exact ⟨hf.1, Or.inl hf.2⟩
            · rw [if_neg h3]
              refine ⟨rfl, ?_⟩
              intro resp hm
              simp only [List.mem_singleton] at hm
              subst hm
              intro _
              simp

/-- Witness for C3 (amended): for an unknown action the dispatcher sends
exactly one response, and that failure response carries the fixed
`Unknown action` message. -/
theorem handleMessage_single_response_witness :
    (handleMessage ⟨some testCfg, none, none⟩ testWorld (some unknownReq)).1.length = 1 ∧
    ({ success := false, error := some "Unknown action" } : ExportResponse).error ≠ none := by
  have h := handleMessage_single_response ⟨some testCfg, none, none⟩ testWorld (some unknownReq)
  refine ⟨h.1, ?_⟩
  have hm := h.2 { success := false, error := some "Unknown action" } (by decide) rfl
  exact hm.1

/-- Counterexample to C3 as stated: the `Unknown action` failure response
carries no timestamp, so not every failure response has the claimed
`{success, error, timestamp}` shape. -/
theorem unknownAction_missing_timestamp_cex :
    (handleMessage ⟨some testCfg, none, none⟩ testWorld (some unknownReq)).1 =
      [{ success := false, error := some "Unknown action" }] ∧
    ({ success := false, error := some "Unknown action" } : ExportResponse).timestamp = none :=
  ⟨rfl, rfl⟩

/-- Helper: a truthy optional string is not the empty string. -/
theorem truthy_jsStr_ne (o : Option String) (h : truthy o = true) : jsStr o ≠ "" := by
  intro heq
  cases o with
  | none => exact absurd h (by decide)
  | some s =>
    rw [show jsStr (some s) = s from rfl] at heq
    subst heq
    exact absurd h (by decide)

/-- Helper for C6: the Remote API Client's base-URL normalization absorbs a
trailing slash. -/
theorem stripTrailingSlashes_append_slash (s : String) :
    stripTrailingSlashes (s ++ "/") = stripTrailingSlashes s := by
  unfold stripTrailingSlashes
  rw [String.data_append]
  simp [List.dropWhile]

/-- C5. When any watched key changes in the synced area, the listener clears
the in-memory configuration cache and both persisted collection ids
together; a subsequent export then loads the configuration freshly from
synced storage (an empty cache can only resolve to `mkCachedConfig` of the
stored values) and resolves collections freshly (an empty slot always calls
`createCollection` exactly once). -/
theorem configChange_invalidation (st : BgState) (changes : Changes)
    (h : changes.outlineUrl = true ∨ changes.apiToken = true ∨
      changes.googleDocsCollectionName = true ∨ changes.googleSheetsCollectionName = true) :
    onStorageChanged st changes "sync" =
      { cachedConfig := none, collectionId := none, collectionIdSheet := none } ∧
    (∀ sync uv now cfg, resolveConfig none sync uv now = ConfigOutcome.loaded cfg →
      cfg = mkCachedConfig (jsStr sync.outlineUrl) (jsStr sync.apiToken)
        sync.googleDocsCollectionName sync.googleSheetsCollectionName) ∧
    (∀ getColl create, (getOrCreateCollection none getColl create).createCalls = 1) := by
  refine ⟨?_, ?_, ?_⟩
  · unfold onStorageChanged
    rcases h with h | h | h | h <;> simp [h]
  · intro sync uv now cfg hc
    unfold resolveConfig at hc
    by_cases h1 : (!truthy sync.outlineUrl || !truthy sync.apiToken) = true
    · rw [if_pos h1] at hc
      cases hc
    · rw [if_neg h1] at hc
      by_cases h2 : (!uv (jsStr sync.outlineUrl)) = true
      · rw [if_pos h2] at hc
        cases hc
      · rw [if_neg h2] at hc
        cases hc
        rfl
  · intro getColl create
    cases create <;> simp [getOrCreateCollection, createCollectionBranch]

/-- Witness for C5: an `apiToken` change wipes the cache and both stored
collection ids, and resolution from an empty slot creates a collection. -/
theorem configChange_invalidation_witness :
    onStorageChanged ⟨some testCfg, some "colA", some "colB"⟩ ⟨false, true, false, false⟩ "sync" =
      { cachedConfig := none, collectionId := none, collectionIdSheet := none } ∧
    (getOrCreateCollection none (fun _ => Except.ok none) (Except.ok "colC")).createCalls = 1 := by
  have h := configChange_invalidation ⟨some testCfg, some "colA", some "colB"⟩
    ⟨false, true, false, false⟩ (Or.inr (Or.inl rfl))
  exact ⟨h.1, h.2.2 _ _⟩

/-- Helper for C6 and C10: a successful `saveGoogleDoc` response carries a
non-empty document id and the url built from the configured base URL. -/
theorem saveGoogleDoc_success_url (cfg : Config) (w : World) (req : Request)
    (stored : Option String)
    (hs : (saveGoogleDoc cfg w req stored).response.success = true) :
    ∃ d, (saveGoogleDoc cfg w req stored).response.documentId = some d ∧ d ≠ "" ∧
      (saveGoogleDoc cfg w req stored).response.url = some (cfg.outlineUrl ++ "/doc/" ++ d) := by
  unfold saveGoogleDoc at hs ⊢
  by_cases hv : (!truthy req.title || !truthy req.content) = true
  · rw [if_pos hv] at hs
    simp [respondWithError] at hs
  · rw [if_neg hv] at hs
    have hv2 := hv
    simp only [Bool.or_eq_true, Bool.not_eq_true', not_or, Bool.not_eq_false] at hv2
    obtain ⟨ht, hc⟩ := hv2
    cases hr : (getOrCreateCollection stored (worldGetCollection w) w.createCollection).result with
    | error msg => simp [hr, respondWithError] at hs
    | ok cid =>
      cases hd : w.createDocument with
      | error msg => simp [hr, hd, respondWithError] at hs
      | ok docIdOpt =>
        cases hid : truthy docIdOpt with
        | false => simp [hr, hd, hid, respondWithError] at hs
        | true =>
          cases hh : headerStep w req (jsStr docIdOpt) with
          | mk res rest =>
            obtain ⟨hn, hu⟩ := rest
            cases res with
            | error msg => simp [hr, hd, hid, hh, respondWithError] at hs
            | ok u =>
              refine ⟨jsStr docIdOpt, ?_, ?_, ?_⟩
              · simp [ht, hc, hr, hd, hid, hh, successResponse]
              · exact truthy_jsStr_ne docIdOpt hid
              · simp [ht, hc, hr, hd, hid, hh, successResponse]

/-- Helper for C10: a successful `importGoogleSheet` response carries a
non-empty document id and the url built from the configured base URL. -/
theorem importGoogleSheet_success_url (cfg : Config) (w : World) (req : Request)
    (stored : Option String)
    (hs : (importGoogleSheet cfg w req stored).response.success = true) :
    ∃ d, (importGoogleSheet cfg w req stored).response.documentId = some d ∧ d ≠ "" ∧
      (importGoogleSheet cfg w req stored).response.url = some (cfg.outlineUrl ++ "/doc/" ++ d) := by
  unfold importGoogleSheet at hs ⊢
  by_cases hv : (!truthy req.fileContent) = true
  · rw [if_pos hv] at hs
    simp [respondWithError] at hs
  · rw [if_neg hv] at hs
    cases hr : (getOrCreateCollection stored (worldGetCollection w) w.createCollection).result with
    | error msg => simp [hv, hr, respondWithError] at hs
    | ok cid =>
      by_cases hfc : (jsTrim (jsStr req.fileContent)).isEmpty = true
      · simp [hv, hr, hfc, respondWithError] at hs
      · cases hd : w.importDocument with
        | error msg => simp [hv, hr, hfc, hd, respondWithError] at hs
        | ok docIdOpt =>
          cases hid : truthy docIdOpt with
          | false => simp [hv, hr, hfc, hd, hid, respondWithError] at hs
          | true =>
            cases hrn : sheetRenameStep w req (jsStr docIdOpt) with
            | mk rres rrest =>
              obtain ⟨rn, ru⟩ := rrest
              cases rres with
              | error msg => simp [hv, hr, hfc, hd, hid, hrn, respondWithError] at hs
              | ok u1 =>
                cases hh : headerStep w req (jsStr docIdOpt) with
                | mk res rest =>
                  obtain ⟨hn, hu⟩ := rest
                  cases res with
                  | error msg => simp [hv, hr, hfc, hd, hid, hrn, hh, respondWithError] at hs
                  | ok u2 =>
                    refine ⟨jsStr docIdOpt, ?_, ?_, ?_⟩
                    · simp [hv, hr, hfc, hd, hid, hrn, hh, successResponse]
                    · exact truthy_jsStr_ne docIdOpt hid
                    · simp [hv, hr, hfc, hd, hid, hrn, hh, successResponse]

/-- C10. In the most complete variant, every `success: true` response of
`saveGoogleDoc` or `importGoogleSheet` carries a non-empty `documentId` and
`url = base ++ "/doc/" ++ documentId`; and when the create response lacks
`data.id`, `saveGoogleDoc` answers with the
`Failed to get document ID from API response` failure instead of a success
with an empty url. -/
theorem success_responses_carry_doc (cfg : Config) (w : World) (req : Request)
    (stored : Option String) :
    ((saveGoogleDoc cfg w req stored).response.success = true →
      ∃ d, (saveGoogleDoc cfg w req stored).response.documentId = some d ∧ d ≠ "" ∧
        (saveGoogleDoc cfg w req stored).response.url = some (cfg.outlineUrl ++ "/doc/" ++ d)) ∧
    ((importGoogleSheet cfg w req stored).response.success = true →
      ∃ d, (importGoogleSheet cfg w req stored).response.documentId = some d ∧ d ≠ "" ∧
        (importGoogleSheet cfg w req stored).response.url =
          some (cfg.outlineUrl ++ "/doc/" ++ d)) ∧
    (truthy req.title = true → truthy req.content = true →
      w.createDocument = Except.ok none →
      ∀ cid, (getOrCreateCollection stored (worldGetCollection w) w.createCollection).result =
        Except.ok cid →
      (saveGoogleDoc cfg w req stored).response =
        respondWithError w.now "Failed to get document ID from API response") := by
  refine ⟨saveGoogleDoc_success_url cfg w req stored,
    importGoogleSheet_success_url cfg w req stored, ?_⟩
  intro ht hc hd cid hr
  unfold saveGoogleDoc
  have hv : ¬(!truthy req.title || !truthy req.content) = true := by simp [ht, hc]
  rw [if_neg hv]
  simp [hr, hd, truthy]

/-- Witness for C10: a successful save carries id `"doc123"` and its url;
a create response without `data.id` yields the missing-id failure. -/
theorem success_responses_carry_doc_witness :
    (∃ d, (saveGoogleDoc testCfg testWorld saveReq none).response.documentId = some d ∧ d ≠ "" ∧
      (saveGoogleDoc testCfg testWorld saveReq none).response.url =
        some (testCfg.outlineUrl ++ "/doc/" ++ d)) ∧
    (saveGoogleDoc testCfg noIdWorld saveReq none).response =
      respondWithError "T0" "Failed to get document ID from API response" := by
  refine ⟨(success_responses_carry_doc testCfg testWorld saveReq none).1 rfl, ?_⟩
  exact (success_responses_carry_doc testCfg noIdWorld saveReq none).2.2 rfl rfl rfl "col1" rfl

/-- C6 (amended). The coordinator caches the configured base URL only
whitespace-trimmed; trailing slashes are stripped only inside the Remote API
Client (whose normalization absorbs a trailing slash), and a successful
save's url is cachedUrl ++ "/doc/" ++ documentId — so it contains a double
slash exactly when the configured URL ends in a slash. -/
theorem baseUrl_trim_and_docUrl (u t : String) (dn sn : Option String)
    (w : World) (req : Request) (stored : Option String) :
    (mkCachedConfig u t dn sn).outlineUrl = jsTrim u ∧
    stripTrailingSlashes (u ++ "/") = stripTrailingSlashes u ∧
    ((saveGoogleDoc (mkCachedConfig u t dn sn) w req stored).response.success = true →
      ∃ d, (saveGoogleDoc (mkCachedConfig u t dn sn) w req stored).response.url =
          some (jsTrim u ++ "/doc/" ++ d) ∧
        (saveGoogleDoc (mkCachedConfig u t dn sn) w req stored).response.documentId = some d) := by
  refine ⟨rfl, stripTrailingSlashes_append_slash u, ?_⟩
  intro hs
  obtain ⟨d, hdoc, hne, hurl⟩ := saveGoogleDoc_success_url (mkCachedConfig u t dn sn) w req stored hs
  exact ⟨d, by rw [hurl]; rfl, hdoc⟩

/-- Witness for C6 (amended): with the trailing-slash URL
`https://ex.com/`, the cached URL keeps its slash and the save succeeds with
a url built from it. -/
theorem baseUrl_trim_and_docUrl_witness :
    (mkCachedConfig "https://ex.com/" "tok" none none).outlineUrl = jsTrim "https://ex.com/" ∧
    ∃ d, (saveGoogleDoc (mkCachedConfig "https://ex.com/" "tok" none none)
        slashWorld saveReq none).response.url =
          some (jsTrim "https://ex.com/" ++ "/doc/" ++ d) ∧
      (saveGoogleDoc (mkCachedConfig "https://ex.com/" "tok" none none)
        slashWorld saveReq none).response.documentId = some d := by
  have h := baseUrl_trim_and_docUrl "https://ex.com/" "tok" none none slashWorld saveReq none
  exact ⟨h.1, h.2.2 rfl⟩

set_option maxRecDepth 100000 in
/-- Counterexample to C6 as stated: a configured base URL with a trailing
slash is cached unnormalized, so the produced document url contains a
double slash before `doc` and differs from the url built on the
slash-stripped base. -/
theorem docUrl_doubleSlash_cex :
    ((handleMessage ⟨none, none, none⟩ slashWorld (some saveReq)).1.map ExportResponse.url) =
      [some "https://ex.com//doc/doc123"] ∧
    (some "https://ex.com//doc/doc123" : Option String) ≠
      some (stripTrailingSlashes "https://ex.com/" ++ "/doc/" ++ "doc123") :=
  ⟨rfl, by decide⟩

/-- C7 (amended). `saveGoogleDoc` requires a truthy (non-empty) title and
content: if either is empty or absent the handler answers
`Missing required fields: title and content are required` (with timestamp)
and makes no network call, leaving storage untouched. There is no
255-character title limit in the code. -/
theorem saveDoc_validation (cfg : Config) (w : World) (req : Request) (stored : Option String)
    (h : truthy req.title = false ∨ truthy req.content = false) :
    saveGoogleDoc cfg w req stored =
      { response := respondWithError w.now "Missing required fields: title and content are required"
        createCalls := 0, netCalls := 0, updates := [], stored := stored } := by
  unfold saveGoogleDoc
  rcases h with h | h <;> simp [h]

/-- Witness for C7 (amended): a request without a title is rejected with
zero network calls. -/
theorem saveDoc_validation_witness :
    saveGoogleDoc testCfg testWorld
        ⟨some "saveGoogleDoc", none, some "C", none, none, none, none⟩ none =
      { response := respondWithError "T0" "Missing required fields: title and content are required"
        createCalls := 0, netCalls := 0, updates := [], stored := none } :=
  saveDoc_validation testCfg testWorld
    ⟨some "saveGoogleDoc", none, some "C", none, none, none, none⟩ none (Or.inl rfl)

set_option maxRecDepth 100000 in
/-- Counterexample to C7 as stated: a title of 256 characters (longer than
the claimed 255-character limit) passes validation — the export succeeds and
network calls are made, instead of the claimed validation failure without
network calls. -/
theorem saveDoc_no_length_limit_cex :
    longTitle.length = 256 ∧
    (saveGoogleDoc testCfg testWorld
        ⟨some "saveGoogleDoc", some longTitle, some "C", none, none, none, none⟩
        none).response.success = true ∧
    (saveGoogleDoc testCfg testWorld
        ⟨some "saveGoogleDoc", some longTitle, some "C", none, none, none, none⟩
        none).netCalls ≠ 0 :=
  ⟨by decide, rfl, by decide⟩

/-- C8. When an `importGoogleSheet` request carries a title and the import
succeeds, the handler fetches the imported document via `getDocument` and
its first `updateDocument` call renames it: requested title, text equal to
the fetched body, `append := false` — the imported body is preserved
unchanged. -/
theorem importSheet_rename_preserves_body (cfg : Config) (w : World) (req : Request)
    (stored : Option String) (cid docId : String) (d : Option DocData)
    (ht : truthy req.title = true)
    (hf : truthy req.fileContent = true)
    (hnb : (jsTrim (jsStr req.fileContent)).isEmpty = false)
    (hres : (getOrCreateCollection stored (worldGetCollection w) w.createCollection).result =
      Except.ok cid)
    (himp : w.importDocument = Except.ok (some docId))
    (hid : truthy (some docId) = true)
    (hinfo : w.docInfo docId = Except.ok d) :
    (sheetRenameStep w req docId).2.2 =
      [{ id := docId, title := jsStr req.title, text := docText d
         append := false, publish := true, done := true }] ∧
    (importGoogleSheet cfg w req stored).updates.head? =
      some { id := docId, title := jsStr req.title, text := docText d
             append := false, publish := true, done := true } := by
  have hrename : (sheetRenameStep w req docId).2.2 =
      [{ id := docId, title := jsStr req.title, text := docText d
         append := false, publish := true, done := true }] := by
    unfold sheetRenameStep
    simp only [ht, hinfo]
    simp only [if_true]
    split <;> rfl
  refine ⟨hrename, ?_⟩
  unfold importGoogleSheet
  have hv : ¬(!truthy req.fileContent) = true := by simp [hf]
  rw [if_neg hv]
  cases hsr : sheetRenameStep w req docId with
  | mk rres rrest =>
    obtain ⟨rn, ru⟩ := rrest
    have hru : ru = [({ id := docId, title := jsStr req.title, text := docText d, append := false, publish := true, done := true } : UpdatePayload)] := by
      rw [hsr] at hrename
      exact hrename
    subst hru
    have hjs : jsStr (some docId) = docId := rfl
    cases rres with
    | error msg => simp [hres, hnb, himp, hid, hjs, hsr]
    | ok u1 =>
      cases hh : headerStep w req docId with
      | mk res rest =>
        obtain ⟨hn, hu⟩ := rest
        cases res with
        | error msg => simp [hres, hnb, himp, hid, hjs, hsr, hh]
        | ok u2 => simp [hres, hnb, himp, hid, hjs, hsr, hh]

set_option maxRecDepth 100000 in
/-- Witness for C8: the import of `sheetReq` into the test world is renamed
with title `"Sheet"`, body `"BODY"` exactly as fetched, and
`append := false`. -/
theorem importSheet_rename_preserves_body_witness :
    (importGoogleSheet testCfg testWorld sheetReq none).updates.head? =
      some { id := "sheet1", title := "Sheet", text := "BODY"
             append := false, publish := true, done := true } := by
  have h := importSheet_rename_preserves_body testCfg testWorld sheetReq none "col1" "sheet1"
    (some ⟨some "BODY", some "TITLE"⟩) rfl rfl rfl rfl rfl rfl rfl
  exact h.2
